import Mathlib

/-!
Verification of the cart and checkout controller of the Azure Gallery
storefront (src/frontend/src/App.js), as a shallow embedding in Lean.

Modelling conventions:
* JavaScript numbers are modelled exactly: identifiers are strings,
  quantities are integers (`Int`, since the code never guards against
  negative quantities), and unit prices are rationals (`Rat`).
* A cart is the ordered list held in the `cart` React state variable.
* The asynchronous `handleCheckout` handler is embedded as a function of
  the cart and of the outcome of the single `fetch` it performs; its
  result records the observable effects of one complete run of the
  handler (final cart, final in-flight flag, alerts raised, the request
  body sent if any, and the redirect target assigned to
  `window.location.href` if any).
* `URLSearchParams` of the entry URL is embedded as an association list
  of decoded key/value pairs; `get` returns the first value for the key.
-/

/-- An artwork record as fetched from the catalog, restricted to the
fields the cart logic reads (id, price) plus the display payload
that is carried along by the object spread. -/
structure Artwork where
  id : String
  title : String
  price : Rat
  image_url : String
deriving DecidableEq, Repr

/-- One cart line: the spread of an artwork record plus a quantity
field, exactly as built by addToCart via object spread plus quantity 1. -/
structure CartItem where
  id : String
  title : String
  price : Rat
  image_url : String
  quantity : Int
deriving DecidableEq, Repr

/-- Embeds addToCart (App.js lines 51-63): if some line carries the id of the artwork,
increment every matching line quantity by 1 via map; otherwise append
a new line with quantity 1 at the end. -/
def addToCart (prevCart : List CartItem) (artwork : Artwork) : List CartItem :=
  if prevCart.any (fun item => item.id = artwork.id) then
    prevCart.map (fun item =>
      if item.id = artwork.id then { item with quantity := item.quantity + 1 } else item)
  else
    prevCart ++ [{ id := artwork.id, title := artwork.title, price := artwork.price,
                   image_url := artwork.image_url, quantity := 1 }]

/-- Embeds removeFromCart (App.js lines 65-67): keep the lines whose id
differs from artworkId. -/
def removeFromCart (prevCart : List CartItem) (artworkId : String) : List CartItem :=
  prevCart.filter (fun item => item.id ≠ artworkId)

/-- Embeds updateCartQuantity (App.js lines 69-79): quantity 0 delegates to
removeFromCart; any other quantity (including a negative one — the code
has no guard) is written into every line whose id matches. -/
def updateCartQuantity (prevCart : List CartItem) (artworkId : String)
    (quantity : Int) : List CartItem :=
  if quantity = 0 then
    removeFromCart prevCart artworkId
  else
    prevCart.map (fun item =>
      if item.id = artworkId then { item with quantity := quantity } else item)

/-- Embeds getCartTotal (App.js lines 81-83): a left fold accumulating
of total + price * quantity starting from 0. -/
def getCartTotal (cart : List CartItem) : Rat :=
  cart.foldl (fun total item => total + item.price * (item.quantity : Rat)) 0

/-- The cart invariant stated by the spec: at most one line per distinct
artwork identifier, and the quantity of every line is at least 1. -/
def CartInv (cart : List CartItem) : Prop :=
  (cart.map CartItem.id).Nodup ∧ ∀ item ∈ cart, 1 ≤ item.quantity

instance (cart : List CartItem) : Decidable (CartInv cart) := by
  unfold CartInv; infer_instance

/-- The outcome of the single fetch performed by handleCheckout,
a POST to /api/checkout/create-session: the fetch itself throws (network
error), or resolves with `response.ok` false, or resolves ok with a JSON
body carrying `session_url`. -/
inductive FetchOutcome where
  | networkError : FetchOutcome
  | httpError : FetchOutcome
  | success (session_url : String) : FetchOutcome
deriving DecidableEq, Repr

/-- The request body built by handleCheckout (App.js lines 94-100):
`items` is the cart projected to (artwork_id, quantity) pairs, plus a
hard-coded customer email. -/
structure CheckoutRequest where
  items : List (String × Int)
  customer_email : String
deriving DecidableEq, Repr

/-- Observable effects of one complete run of `handleCheckout`:
the cart afterwards (the handler never writes setCart), the final
value of the isCheckingOut flag, whether setIsCheckingOut(true) ran,
the alerts raised in order, the request body sent (`none` when no fetch
was issued), and the URL assigned to window.location.href if any. -/
structure CheckoutResult where
  cart : List CartItem
  isCheckingOut : Bool
  enteredInFlight : Bool
  alerts : List String
  request : Option CheckoutRequest
  redirect : Option String
deriving DecidableEq, Repr

/-- Embeds handleCheckout (App.js lines 85-125) over the fetch
outcome. The empty-cart guard alerts and returns before any state
change; otherwise the flag is raised, the request sent, and on success
window.location.href is assigned. The finally clause lowers the
flag on every non-guard path, including the success path. -/
def handleCheckout (cart : List CartItem) (outcome : FetchOutcome) : CheckoutResult :=
  if cart.length = 0 then
    { cart := cart, isCheckingOut := false, enteredInFlight := false,
      alerts := ["Your cart is empty!"], request := none, redirect := none }
  else
    let req : CheckoutRequest :=
      { items := cart.map (fun item => (item.id, item.quantity)),
        customer_email := "customer@example.com" }
    match outcome with
    | .networkError =>
        { cart := cart, isCheckingOut := false, enteredInFlight := true,
          alerts := ["Failed to start checkout. Please try again."],
          request := some req, redirect := none }
    | .httpError =>
        { cart := cart, isCheckingOut := false, enteredInFlight := true,
          alerts := ["Failed to start checkout. Please try again."],
          request := some req, redirect := none }
    | .success url =>
        { cart := cart, isCheckingOut := false, enteredInFlight := true,
          alerts := [], request := some req, redirect := some url }

/-- The part of the React state the return-reconciliation claims read:
the cart and the currentView string. -/
structure AppState where
  cart : List CartItem
  currentView : String
deriving DecidableEq, Repr

/-- Embeds URLSearchParams.get over the decoded query pairs: first value
bound to the key, or none. -/
def getParam (query : List (String × String)) (key : String) : Option String :=
  (query.find? (fun p => p.1 = key)).map (fun p => p.2)

/-- JavaScript truthiness of urlParams.get: null and the empty
string are falsy, every other string is truthy. -/
def jsTruthy : Option String → Bool
  | none => false
  | some s => s ≠ ""

/-- The mount effect (App.js lines 20-25): read session_id from the
query of the entry URL; if it is truthy, set the view to the success state.
The cart is not touched. -/
def mountEffect (query : List (String × String)) (s : AppState) : AppState :=
  if jsTruthy (getParam query "session_id") then
    { s with currentView := "success" }
  else
    s

/-- The continue-shopping click handler of SuccessPage
(App.js lines 453-461): clear the cart and go to the home view. -/
def continueShopping (s : AppState) : AppState :=
  { s with cart := [], currentView := "home" }

/-- Tags for the page components renderCurrentView can yield. -/
inductive Page where
  | home : Page
  | gallery : Page
  | artworkDetail : Page
  | about : Page
  | contact : Page
  | success : Page
deriving DecidableEq, Repr

/-- Embeds renderCurrentView (App.js lines 523-538): a switch on the view
string with a `HomePage` default; there is no case for the success
view. -/
def renderCurrentView (currentView : String) : Page :=
  if currentView = "home" then Page.home
  else if currentView = "gallery" then Page.gallery
  else if currentView = "artwork-detail" then Page.artworkDetail
  else if currentView = "about" then Page.about
  else if currentView = "contact" then Page.contact
  else Page.home

/-! ## Helper lemmas -/

/-- Mapping a function that never changes the id field leaves the list
of ids unchanged. -/
theorem map_ids_eq (f : CartItem → CartItem) (hf : ∀ item, (f item).id = item.id)
    (l : List CartItem) : (l.map f).map CartItem.id = l.map CartItem.id := by
  induction l with
  | nil => rfl
  | cons x xs ih => simp only [List.map_cons, hf, ih]

/-- An id-conditional update maps to the identity on a list none of
whose lines carry the id. -/
theorem map_upd_eq_self (g : CartItem → CartItem) (aid : String) (l : List CartItem)
    (h : ∀ x ∈ l, x.id ≠ aid) :
    l.map (fun item => if item.id = aid then g item else item) = l := by
  induction l with
  | nil => rfl
  | cons x xs ih =>
    simp only [List.map_cons]
    rw [if_neg (h x (by simp)), ih (fun y hy => h y (by simp [hy]))]

/-- Unfolding getCartTotal into a sum over the mapped lines. -/
theorem getCartTotal_eq_sum (c : List CartItem) :
    getCartTotal c = (c.map (fun item => item.price * (item.quantity : Rat))).sum := by
  have h : ∀ (l : List CartItem) (acc : Rat),
      l.foldl (fun total item => total + item.price * (item.quantity : Rat)) acc
        = acc + (l.map (fun item => item.price * (item.quantity : Rat))).sum := by
    intro l
    induction l with
    | nil => intro acc; simp
    | cons x xs ih => intro acc; simp [ih, add_assoc]
  simp [getCartTotal, h c 0]

/-! ## Claims -/

/-- C6: addToCart appends a line with quantity 1 when no line carries
the id of the artwork; when the cart splits as pre ++ item :: post with
only item carrying that id, it bumps the quantity of exactly that line
by 1 in place; and adding the same artwork twice to the empty cart
yields one line with quantity 2. -/
theorem c6_addItem_merges_or_appends (c pre post : List CartItem)
    (item : CartItem) (a : Artwork) :
    (a.id ∉ c.map CartItem.id →
      addToCart c a = c ++ [⟨a.id, a.title, a.price, a.image_url, 1⟩]) ∧
    (item.id = a.id → (∀ x ∈ pre, x.id ≠ a.id) → (∀ x ∈ post, x.id ≠ a.id) →
      addToCart (pre ++ item :: post) a
        = pre ++ { item with quantity := item.quantity + 1 } :: post) ∧
    addToCart (addToCart [] a) a = [⟨a.id, a.title, a.price, a.image_url, 2⟩] := by
  refine ⟨?_, ?_, ?_⟩
  · intro hnot
    have hany : (c.any (fun x => x.id = a.id)) = false := by
      rw [List.any_eq_false]
      intro x hx
      simp only [decide_eq_true_eq]
      exact fun he => hnot (he ▸ List.mem_map_of_mem CartItem.id hx)
    simp [addToCart, hany]
  · intro hid hpre hpost
    have hany : ((pre ++ item :: post).any (fun x => x.id = a.id)) = true := by
      rw [List.any_eq_true]
      exact ⟨item, by simp, by simp [hid]⟩
    simp only [addToCart, hany, if_true]
    rw [List.map_append, List.map_cons, if_pos hid,
        map_upd_eq_self _ _ _ hpre, map_upd_eq_self _ _ _ hpost]
  · simp [addToCart]

/-- C7: updateCartQuantity with quantity 0 is exactly removeFromCart,
and removeFromCart with an id no line carries leaves the cart
unchanged. -/
theorem c7_setQuantity_zero_is_remove (c : List CartItem) (aid : String) :
    updateCartQuantity c aid 0 = removeFromCart c aid ∧
    ((∀ x ∈ c, x.id ≠ aid) → removeFromCart c aid = c) := by
  constructor
  · simp [updateCartQuantity]
  · intro h
    unfold removeFromCart
    rw [List.filter_eq_self]
    intro x hx
    simpa using h x hx

/-- C8: getCartTotal is the sum of price times quantity over all lines,
and is invariant under permutation of the lines; this holds for every
cart, hence in particular for every cart reachable by sequences of
addToCart, removeFromCart and updateCartQuantity. -/
theorem c8_total_is_perm_invariant_sum (c d : List CartItem) (h : c.Perm d) :
    getCartTotal c = (c.map (fun item => item.price * (item.quantity : Rat))).sum ∧
    getCartTotal c = getCartTotal d := by
  refine ⟨getCartTotal_eq_sum c, ?_⟩
  rw [getCartTotal_eq_sum c, getCartTotal_eq_sum d]
  exact List.Perm.sum_eq (List.Perm.map _ h)

/-- removeFromCart preserves the cart invariant. -/
theorem cartInv_removeFromCart (c : List CartItem) (aid : String)
    (h : CartInv c) : CartInv (removeFromCart c aid) := by
  obtain ⟨hnd, hq⟩ := h
  constructor
  · exact ((List.filter_sublist c).map CartItem.id).nodup hnd
  · intro item hitem
    exact hq item (List.mem_of_mem_filter hitem)

/-- addToCart preserves the cart invariant. -/
theorem cartInv_addToCart (c : List CartItem) (a : Artwork)
    (h : CartInv c) : CartInv (addToCart c a) := by
  obtain ⟨hnd, hq⟩ := h
  unfold addToCart
  by_cases hany : (c.any (fun item => item.id = a.id)) = true
  · rw [if_pos hany]
    constructor
    · rw [map_ids_eq]
      · exact hnd
      · intro item; by_cases hi : item.id = a.id <;> simp [hi]
    · intro item hitem
      rcases List.mem_map.mp hitem with ⟨x, hx, rfl⟩
      have h1 := hq x hx
      by_cases hi : x.id = a.id <;> simp [hi] <;> omega
  · rw [if_neg hany]
    have hnotin : a.id ∉ c.map CartItem.id := by
      intro hmem
      rcases List.mem_map.mp hmem with ⟨x, hx, hxid⟩
      exact hany (List.any_eq_true.mpr ⟨x, hx, by simp [hxid]⟩)
    constructor
    · simp only [List.map_append, List.map_cons, List.map_nil]
      rw [List.nodup_append]
      refine ⟨hnd, List.nodup_singleton _, ?_⟩
      intro y hy hmem
      rw [List.mem_singleton] at hmem
      exact hnotin (hmem ▸ hy)
    · intro item hitem
      rcases List.mem_append.mp hitem with h1 | h1
      · exact hq item h1
      · rw [List.mem_singleton] at h1
        subst h1
        exact le_refl 1

/-- updateCartQuantity with a nonnegative quantity preserves the cart
invariant. -/
theorem cartInv_updateCartQuantity (c : List CartItem) (aid : String) (q : Int)
    (hq0 : 0 ≤ q) (h : CartInv c) : CartInv (updateCartQuantity c aid q) := by
  obtain ⟨hnd, hq⟩ := h
  unfold updateCartQuantity
  by_cases hz : q = 0
  · rw [if_pos hz]
    exact cartInv_removeFromCart c aid ⟨hnd, hq⟩
  · rw [if_neg hz]
    constructor
    · rw [map_ids_eq]
      · exact hnd
      · intro item; by_cases hi : item.id = aid <;> simp [hi]
    · intro item hitem
      rcases List.mem_map.mp hitem with ⟨x, hx, rfl⟩
      have h1 := hq x hx
      by_cases hi : x.id = aid <;> simp [hi] <;> omega

/-- C1 counterexample: a cart satisfying the invariant on which
setQuantity with a negative quantity (which the code does not guard
against) yields a cart violating the invariant, refuting the claim that
every setQuantity call preserves it. -/
theorem c1_counterexample_negative_setQuantity :
    CartInv [⟨"a1", "Blue", 5, "img", 1⟩] ∧
    ¬ CartInv (updateCartQuantity [⟨"a1", "Blue", 5, "img", 1⟩] "a1" (-1)) := by
  decide

/-- C1 (amended): on a cart satisfying the invariant, addItem and
removeItem always preserve it, and setQuantity preserves it whenever the
requested quantity is nonnegative. -/
theorem c1_operations_preserve_invariant (c : List CartItem) (a : Artwork)
    (aid : String) (q : Int) (h : CartInv c) :
    CartInv (addToCart c a) ∧ CartInv (removeFromCart c aid) ∧
    (0 ≤ q → CartInv (updateCartQuantity c aid q)) :=
  ⟨cartInv_addToCart c a h, cartInv_removeFromCart c aid h,
   fun hq0 => cartInv_updateCartQuantity c aid q hq0 h⟩

/-- C1 witness: the amended theorem applied to a concrete invariant
cart, artwork and quantity. -/
theorem c1_operations_preserve_invariant_witness :
    CartInv [⟨"a1", "Blue", 5, "img", 1⟩] ∧
    (CartInv (addToCart [⟨"a1", "Blue", 5, "img", 1⟩] ⟨"a2", "Red", 7, "img2"⟩) ∧
     CartInv (removeFromCart [⟨"a1", "Blue", 5, "img", 1⟩] "a1") ∧
     (0 ≤ (3 : Int) → CartInv (updateCartQuantity [⟨"a1", "Blue", 5, "img", 1⟩] "a1" 3))) :=
  ⟨by decide,
   c1_operations_preserve_invariant [⟨"a1", "Blue", 5, "img", 1⟩]
     ⟨"a2", "Red", 7, "img2"⟩ "a1" 3 (by decide)⟩

/-- C2: evidence that a negative quantity is not refused — the code
writes the negative value into the matching line, so the cart after the
call differs from the cart before it. -/
theorem c2_negative_quantity_written_not_refused :
    updateCartQuantity [⟨"a1", "Blue", 5, "img", 1⟩] "a1" (-1)
      = [⟨"a1", "Blue", 5, "img", -1⟩] ∧
    updateCartQuantity [⟨"a1", "Blue", 5, "img", 1⟩] "a1" (-1)
      ≠ [⟨"a1", "Blue", 5, "img", 1⟩] := by
  decide

/-- C3 counterexample: a query carrying the session_id key with an empty
value. The marker is present, yet the mount effect leaves the view at
home, because the code tests JavaScript truthiness of the value rather
than mere presence of the key. -/
theorem c3_counterexample_empty_marker_value :
    ("session_id", "") ∈ [("session_id", "")] ∧
    getParam [("session_id", "")] "session_id" = some "" ∧
    (mountEffect [("session_id", "")] ⟨[], "home"⟩).currentView ≠ "success" := by
  decide

/-- C3 (amended): when the entry query binds session_id to a nonempty
value, the mount effect sets the view to the success state and leaves
the cart untouched; the explicit continue-shopping action then empties
the cart and sets the home view. -/
theorem c3_return_reconciliation (query : List (String × String)) (s : AppState)
    (v : String) (hget : getParam query "session_id" = some v) (hv : v ≠ "") :
    (mountEffect query s).currentView = "success" ∧
    (mountEffect query s).cart = s.cart ∧
    (continueShopping (mountEffect query s)).cart = [] ∧
    (continueShopping (mountEffect query s)).currentView = "home" := by
  have ht : jsTruthy (getParam query "session_id") = true := by
    rw [hget]
    simp [jsTruthy, hv]
  simp [mountEffect, ht, continueShopping]

/-- C3 witness: the amended theorem applied to a concrete query and
state. -/
theorem c3_return_reconciliation_witness :
    getParam [("session_id", "cs_1")] "session_id" = some "cs_1" ∧
    ("cs_1" : String) ≠ "" ∧
    ((mountEffect [("session_id", "cs_1")] ⟨[⟨"a1", "Blue", 5, "img", 1⟩], "home"⟩).currentView
        = "success" ∧
     (mountEffect [("session_id", "cs_1")] ⟨[⟨"a1", "Blue", 5, "img", 1⟩], "home"⟩).cart
        = [⟨"a1", "Blue", 5, "img", 1⟩] ∧
     (continueShopping (mountEffect [("session_id", "cs_1")]
        ⟨[⟨"a1", "Blue", 5, "img", 1⟩], "home"⟩)).cart = [] ∧
     (continueShopping (mountEffect [("session_id", "cs_1")]
        ⟨[⟨"a1", "Blue", 5, "img", 1⟩], "home"⟩)).currentView = "home") :=
  ⟨by decide, by decide,
   c3_return_reconciliation [("session_id", "cs_1")]
     ⟨[⟨"a1", "Blue", 5, "img", 1⟩], "home"⟩ "cs_1" (by decide) (by decide)⟩

/-- C4: when the cart is nonempty and the session-creation fetch fails
(network error or non-2xx response), the handler leaves the cart and its
total unchanged, ends with the in-flight flag cleared, and raises a
user-visible error alert. -/
theorem c4_failed_checkout_preserves_cart (c : List CartItem) (o : FetchOutcome)
    (hne : c ≠ []) (hfail : o = FetchOutcome.networkError ∨ o = FetchOutcome.httpError) :
    (handleCheckout c o).cart = c ∧
    getCartTotal (handleCheckout c o).cart = getCartTotal c ∧
    (handleCheckout c o).isCheckingOut = false ∧
    (handleCheckout c o).alerts = ["Failed to start checkout. Please try again."] := by
  have hlen : ¬ c.length = 0 := by
    intro h0
    exact hne (List.length_eq_zero.mp h0)
  rcases hfail with h | h <;> subst h <;> simp [handleCheckout, hlen]

/-- C4 witness: the theorem applied to a concrete nonempty cart and a
network error. -/
theorem c4_failed_checkout_preserves_cart_witness :
    ([⟨"a1", "Blue", 5, "img", 1⟩] : List CartItem) ≠ [] ∧
    ((handleCheckout [⟨"a1", "Blue", 5, "img", 1⟩] FetchOutcome.networkError).cart
        = [⟨"a1", "Blue", 5, "img", 1⟩] ∧
     getCartTotal (handleCheckout [⟨"a1", "Blue", 5, "img", 1⟩] FetchOutcome.networkError).cart
        = getCartTotal [⟨"a1", "Blue", 5, "img", 1⟩] ∧
     (handleCheckout [⟨"a1", "Blue", 5, "img", 1⟩] FetchOutcome.networkError).isCheckingOut
        = false ∧
     (handleCheckout [⟨"a1", "Blue", 5, "img", 1⟩] FetchOutcome.networkError).alerts
        = ["Failed to start checkout. Please try again."]) :=
  ⟨by decide,
   c4_failed_checkout_preserves_cart [⟨"a1", "Blue", 5, "img", 1⟩]
     FetchOutcome.networkError (by decide) (Or.inl rfl)⟩

/-- C5: on the empty cart, whatever the fetch outcome parameter, the
handler never reaches the fetch: no request is sent, the in-flight state
is never entered, the cart-empty alert is raised, and the cart stays
empty. -/
theorem c5_empty_cart_checkout_refused (o : FetchOutcome) :
    handleCheckout [] o =
      { cart := [], isCheckingOut := false, enteredInFlight := false,
        alerts := ["Your cart is empty!"], request := none, redirect := none } := by
  simp [handleCheckout]

/-- C6 witness: the theorem applied to concrete carts — an append on a
cart without the id, an in-place increment on a cart with it, and the
double add on the empty cart. -/
theorem c6_addItem_merges_or_appends_witness :
    ((⟨"a1", "Blue", 5, "img"⟩ : Artwork).id
        ∉ ([⟨"x", "Teal", 2, "u", 1⟩] : List CartItem).map CartItem.id) ∧
    (addToCart [⟨"x", "Teal", 2, "u", 1⟩] ⟨"a1", "Blue", 5, "img"⟩
      = [⟨"x", "Teal", 2, "u", 1⟩] ++ [⟨"a1", "Blue", 5, "img", 1⟩]) ∧
    (addToCart ([⟨"x", "Teal", 2, "u", 1⟩] ++ ⟨"a1", "Blue", 5, "img", 1⟩ :: [])
        ⟨"a1", "Blue", 5, "img"⟩
      = [⟨"x", "Teal", 2, "u", 1⟩]
          ++ { (⟨"a1", "Blue", 5, "img", 1⟩ : CartItem) with
                quantity := (⟨"a1", "Blue", 5, "img", 1⟩ : CartItem).quantity + 1 } :: []) ∧
    addToCart (addToCart [] ⟨"a1", "Blue", 5, "img"⟩) ⟨"a1", "Blue", 5, "img"⟩
      = [⟨"a1", "Blue", 5, "img", 2⟩] :=
  have h := c6_addItem_merges_or_appends [⟨"x", "Teal", 2, "u", 1⟩]
    [⟨"x", "Teal", 2, "u", 1⟩] [] ⟨"a1", "Blue", 5, "img", 1⟩ ⟨"a1", "Blue", 5, "img"⟩
  ⟨by decide, h.1 (by decide), h.2.1 (by decide) (by decide) (by decide), h.2.2⟩

/-- C7 witness: the theorem applied to a concrete cart and an id no line
carries. -/
theorem c7_setQuantity_zero_is_remove_witness :
    (updateCartQuantity [⟨"a1", "Blue", 5, "img", 2⟩] "zz" 0
        = removeFromCart [⟨"a1", "Blue", 5, "img", 2⟩] "zz") ∧
    (∀ x ∈ ([⟨"a1", "Blue", 5, "img", 2⟩] : List CartItem), x.id ≠ "zz") ∧
    removeFromCart [⟨"a1", "Blue", 5, "img", 2⟩] "zz" = [⟨"a1", "Blue", 5, "img", 2⟩] :=
  have h := c7_setQuantity_zero_is_remove [⟨"a1", "Blue", 5, "img", 2⟩] "zz"
  ⟨h.1, by decide, h.2 (by decide)⟩

/-- C8 witness: the theorem applied to a concrete two-line cart and its
transposition. -/
theorem c8_total_is_perm_invariant_sum_witness :
    ([⟨"a", "T", 3, "u", 2⟩, ⟨"b", "S", 5, "v", 1⟩] : List CartItem).Perm
        [⟨"b", "S", 5, "v", 1⟩, ⟨"a", "T", 3, "u", 2⟩] ∧
    (getCartTotal [⟨"a", "T", 3, "u", 2⟩, ⟨"b", "S", 5, "v", 1⟩]
        = (([⟨"a", "T", 3, "u", 2⟩, ⟨"b", "S", 5, "v", 1⟩] : List CartItem).map
            (fun item => item.price * (item.quantity : Rat))).sum ∧
     getCartTotal [⟨"a", "T", 3, "u", 2⟩, ⟨"b", "S", 5, "v", 1⟩]
        = getCartTotal [⟨"b", "S", 5, "v", 1⟩, ⟨"a", "T", 3, "u", 2⟩]) :=
  have hperm : ([⟨"a", "T", 3, "u", 2⟩, ⟨"b", "S", 5, "v", 1⟩] : List CartItem).Perm
      [⟨"b", "S", 5, "v", 1⟩, ⟨"a", "T", 3, "u", 2⟩] :=
    List.Perm.swap (⟨"b", "S", 5, "v", 1⟩ : CartItem) (⟨"a", "T", 3, "u", 2⟩ : CartItem) []
  ⟨hperm, c8_total_is_perm_invariant_sum _ _ hperm⟩

/-- C9: evidence against terminality of the Redirecting state — on a
successful session creation the handler assigns the redirect URL, yet
the finally clause still clears the in-flight flag, so within the same
process the controller ends with submission re-enabled (back to Idle)
rather than staying in Redirecting. -/
theorem c9_success_reenables_submission :
    (handleCheckout [⟨"a1", "Blue", 5, "img", 1⟩]
        (FetchOutcome.success "https://pay.example/s")).redirect
      = some "https://pay.example/s" ∧
    (handleCheckout [⟨"a1", "Blue", 5, "img", 1⟩]
        (FetchOutcome.success "https://pay.example/s")).enteredInFlight = true ∧
    (handleCheckout [⟨"a1", "Blue", 5, "img", 1⟩]
        (FetchOutcome.success "https://pay.example/s")).isCheckingOut = false := by
  decide

/-- C10: the view dispatcher maps the success view string to the home
page — it has no case for it, so the default applies — and no view
string at all makes the dispatcher yield the success page. -/
theorem c10_success_view_renders_home :
    renderCurrentView "success" = Page.home ∧
    ∀ v : String, renderCurrentView v ≠ Page.success := by
  constructor
  · decide
  · intro v h
    unfold renderCurrentView at h
    repeat' split at h
    all_goals exact Page.noConfusion h
